import Mathlib

/-!
Verification development for the radar-chart script
`mastersCopenhagen2022MVP.py` (a single-file matplotlib radar plot).

Numeric data are embedded over `ℚ` (the source uses floating-point
literals; all of them are exact decimals, so `ℚ` represents them exactly).
Angles are represented by their coefficient of π: the call
`np.linspace(0, 2*np.pi, num_vars, endpoint=False)` of the source is
embedded as `linspace 0 2 num_vars`, an angle `c` in this representation
meaning the real angle `c * π`.  Theorems about angular positions state
their conclusions over `ℝ` through that interpretation.
-/

/-- Embedding of `np.linspace(start, stop, num, endpoint=False)`: the `num`
samples `start + (stop - start) * i / num` for `i = 0, …, num - 1`. -/
def linspace (start stop : ℚ) (num : ℕ) : List ℚ :=
  (List.range num).map fun i : ℕ => start + (stop - start) * (i : ℚ) / num

/-- Line 26: `theta = np.linspace(0, 2*np.pi, num_vars, endpoint=False)`,
in units of π (so the stop value `2` stands for `2π`). -/
def radar_theta (num_vars : ℕ) : List ℚ :=
  linspace 0 2 num_vars

/-- Embedding of `radar_factory(num_vars, frame)`: computes `theta`, defines
and registers the `RadarAxes` projection class (a side effect producing no
value), and returns `theta`.  The body contains no conditional on `frame`
and no raise statement: `frame` is only captured by the nested classes for
later use. -/
def radar_factory (num_vars : ℕ) (frame : String) : List ℚ :=
  radar_theta num_vars

/-- Embedding of a matplotlib `Path`: vertex array, optional code array,
and the interpolation-step count (`_interpolation_steps`, default 1). -/
structure MPath where
  vertices : List (ℚ × ℚ)
  codes : Option (List ℕ)
  interpolation_steps : ℕ
deriving DecidableEq

/-- Embedding of `RadarTransform.transform_path_non_affine` (lines 30–36).
The library helpers `Path.interpolated` and `PolarTransform.transform` are
not part of this repository, so they are passed in as the parameters
`interp` and `tr`:

```
if path._interpolation_steps > 1:
    path = path.interpolated(num_vars)
return Path(self.transform(path.vertices), path.codes)
```

The freshly constructed `Path` has the default `_interpolation_steps = 1`. -/
def RadarTransform.transform_path_non_affine
    (interp : MPath → ℕ → MPath) (tr : List (ℚ × ℚ) → List (ℚ × ℚ))
    (num_vars : ℕ) (path : MPath) : MPath :=
  let path1 := if path.interpolation_steps > 1 then interp path num_vars else path
  ⟨tr path1.vertices, path1.codes, 1⟩

/-- The patch objects `_gen_axes_patch` can build: `Circle(center, radius)`
or `RegularPolygon(center, numVertices, radius=…, edgecolor=…)`. -/
inductive Patch where
  | circle (center : ℚ × ℚ) (radius : ℚ)
  | regularPolygon (center : ℚ × ℚ) (numVertices : ℕ) (radius : ℚ) (edgecolor : String)
deriving DecidableEq

/-- Embedding of `RadarAxes._gen_axes_patch` (lines 71–80): dispatches on
the captured `frame`, raising `ValueError` with the message
`Unknown value for \x27frame\x27: %s` (formatted with the offending value)
on any other selector.  `\x27` is the ASCII apostrophe appearing in the
source message. -/
def RadarAxes.gen_axes_patch (frame : String) (num_vars : ℕ) : Except String Patch :=
  if frame = "circle" then
    .ok (.circle (0.5, 0.5) 0.5)
  else if frame = "polygon" then
    .ok (.regularPolygon (0.5, 0.5) num_vars 0.5 ("k"))
  else
    .error ("Unknown value for \x27frame\x27: " ++ frame)

/-- Embedding of `RadarAxes._close_line` (lines 60–66): reads
`x, y = line.get_data()` and, when `x[0] != x[-1]`, sets the data to
`append(x, x[0]), append(y, y[0])`.  The fallthrough arm is unreachable for
actual plotted lines (indexing an empty array would raise in Python). -/
def close_line (x y : List ℚ) : List ℚ × List ℚ :=
  match x.head?, x.getLast?, y.head? with
  | some x0, some xn, some y0 =>
      if x0 ≠ xn then (x ++ [x0], y ++ [y0]) else (x, y)
  | _, _, _ => (x, y)

/-- Data of one `Line2D` object, as returned by `line.get_data()`. -/
structure Line where
  xdata : List ℚ
  ydata : List ℚ
deriving DecidableEq

/-- Action of `_close_line` on a whole line object. -/
def Line.close (l : Line) : Line :=
  ⟨(close_line l.xdata l.ydata).1, (close_line l.xdata l.ydata).2⟩

/-- Embedding of the parent-class `plot`: creates the requested lines and
returns the list of created `Line2D` objects.  First component: the Python
return value; second component: the lines as left on the axes. -/
def Axes.plot (lines : List Line) : Option (List Line) × List Line :=
  (some lines, lines)

/-- Embedding of `RadarAxes.plot` (lines 54–58): calls `super().plot(...)`,
closes each created line, and falls off the end of the body — returning
`None`.  First component: the Python return value; second component: the
lines as left on the axes after `_close_line` ran on each. -/
def RadarAxes.plot (lines : List Line) : Option (List Line) × List Line :=
  (none, (Axes.plot lines).2.map Line.close)

/-- Embedding of `np.degrees` on a list of angles in units of π: the angle
`c·π` rad is `c·180` degrees. -/
def np_degrees (theta : List ℚ) : List ℚ :=
  theta.map fun c => c * 180

/-- Modelled from the spec: `set_thetagrids` of matplotlib (library code,
not under the source of this repository).  Per the spec it "assigns one per
angular position in the order computed above; fails if the count does not
match": it pairs the i-th angle (in degrees) with the i-th label, and
errors when the label count differs from the angle count. -/
def set_thetagrids (angles : List ℚ) (labels : List String) :
    Except String (List (ℚ × String)) :=
  if labels.length = angles.length then
    .ok (angles.zip labels)
  else
    .error ("The number of labels must match the number of tick locations")

/-- Embedding of `RadarAxes.set_varlabels` (lines 68–69):
`self.set_thetagrids(np.degrees(theta), labels)`, with `theta` the angle
list captured from the enclosing `radar_factory` call. -/
def RadarAxes.set_varlabels (num_vars : ℕ) (labels : List String) :
    Except String (List (ℚ × String)) :=
  set_thetagrids (np_degrees (radar_theta num_vars)) labels

/-- One element of the heterogeneous Python list built by `example_data`:
either the label row (a list of strings) or a `(name, rows)` tuple. -/
inductive DataEntry where
  | labels (ls : List String)
  | mapEntry (nm : String) (rows : List (List ℚ))
deriving DecidableEq

/-- Embedding of `example_data` (lines 103–150), the literal data table,
verbatim. -/
def example_data : List DataEntry :=
  [ .labels ["Kills", "ACS", "K-D Difference", "Assists", "KAST%", "ADR",
             "HS%", "First Kills", "First Kill Difference"],
    .mapEntry ("Icebox") [
      [0.7, 0.803448276, 0, 1, 1, 0.79787234, 0.41, 0, 0],
      [0.95, 0.910344828, 1, 0.363636364, 0.833333333, 0.835106383, 0.52, 1, 1],
      [1, 1, 0.66, 0.545454545, 0.777777778, 1, 0.25, 1, 1],
      [0.8, 0.827586207, 0.33, 0.636363636, 0.888888889, 0.808510638, 0.29, 0.66, 1],
      [0.75, 0.686206897, 0, 0.363636364, 0.722222222, 0.760638298, 0.44, 0.66, 1]],
    .mapEntry ("Fracture") [
      [0.681818182, 0.75432526, 0.666, 1, 1, 1, 0.33, 0.666, 1],
      [0.681818182, 0.747404844, 0.5, 0.1, 0.8, 0.781420765, 0.14, 0.666, 0],
      [0.727272727, 0.757785467, 0.333, 0.4, 0.866666667, 0.74863388, 0.20, 0.166, 0],
      [1, 1, 0.833, 0.5, 1, 0.928961749, 0.23, 0.166, 1],
      [0.545454545, 0.574394464, 0.166, 0.4, 0.8, 0.595628415, 0.18, 0.166, 0]],
    .mapEntry ("Haven") [
      [0.72, 0.740524781, 0.666, 0.5, 0.866666667, 0.792079208, 0.35, 0.333, 0.5],
      [0.64, 0.67638484, 0.5, 0.375, 0.933333333, 0.742574257, 0.42, 0.333, 0.166],
      [1, 1, 0.833, 0.125, 1, 1, 0.18, 0.833, 0.833],
      [0.32, 0.38483965, 0.166, 1, 0.733333333, 0.52970297, 0.16, 0.166, 0.5],
      [0.52, 0.56851312, 0.333, 0.625, 0.866666667, 0.643564356, 0.26, 0.333, 0.166]],
    .mapEntry ("Breeze") [
      [0.85, 0.843636364, 0.833, 0.857142857, 0.948051948, 0.828571429, 0.5, 0.166, 0.5],
      [0.75, 0.683636364, 0.333, 0.714285714, 1, 0.72, 0.37, 0.5, 0.5],
      [1, 1, 0.5, 0.714285714, 0.948051948, 1, 0.27, 0.833, 0.166],
      [0.95, 0.88, 0.5, 0.571428571, 0.831168831, 0.954285714, 0.45, 0.166, 0.833],
      [0.6, 0.581818182, 0.166, 1, 0.831168831, 0.605714286, 0.21, 0.5, 0.333]] ]

/-- Embedding of the Python call `list.pop(0)`: returns the first element
and leaves the list without it (an in-place removal, modelled by explicit
state passing). -/
def list_pop_front (l : List DataEntry) : Option DataEntry × List DataEntry :=
  (l.head?, l.tail)

/-- Main-block line 158, `spoke_labels = data.pop(0)`: the value popped. -/
def main_spoke_labels : Option DataEntry :=
  (list_pop_front example_data).1

/-- Main-block line 158: the list bound to `data` after `data.pop(0)`. -/
def main_data : List DataEntry :=
  (list_pop_front example_data).2

/-- Shape check for the label row: a `labels` entry holding 9 strings. -/
def DataEntry.isLabels9 : DataEntry → Bool
  | .labels ls => ls.length == 9
  | .mapEntry _ _ => false

/-- Shape check for a map entry: 5 rows, each of 9 values, all in [0, 1]. -/
def DataEntry.isMapEntryOK : DataEntry → Bool
  | .labels _ => false
  | .mapEntry _ rows =>
      rows.length == 5 &&
        rows.all fun r => r.length == 9 && r.all fun v => 0 ≤ v && v ≤ 1

/-! ### Helper lemmas -/

/-- The angle list written with its samples in closed form. -/
lemma radar_theta_eq_map (n : ℕ) :
    radar_theta n = (List.range n).map (fun i : ℕ => (2 * i / n : ℚ)) := by
  unfold radar_theta linspace
  refine List.map_congr_left ?_
  intro i _
  ring

lemma np_degrees_radar_theta_length (n : ℕ) :
    (np_degrees (radar_theta n)).length = n := by
  simp [np_degrees, radar_theta, linspace]

/-! ### Claims -/

/-- C1: for every `num_vars ≥ 1`, `radar_factory` returns (for any frame
selector) the list `theta` of exactly `num_vars` angular positions, starting
at 0, strictly increasing, each lying in `[0, 2π)`, with the i-th angle
equal to `2π·i/num_vars`.  An entry `c` of `radar_theta` denotes the real
angle `c * π`. -/
theorem radar_theta_spec (num_vars : ℕ) (h1 : 1 ≤ num_vars) :
    (∀ frame, radar_factory num_vars frame = radar_theta num_vars) ∧
    (radar_theta num_vars).length = num_vars ∧
    (radar_theta num_vars).head? = some 0 ∧
    ((radar_theta num_vars).map fun c : ℚ => (c : ℝ) * Real.pi).Pairwise (· < ·) ∧
    (∀ c ∈ radar_theta num_vars,
      0 ≤ (c : ℝ) * Real.pi ∧ (c : ℝ) * Real.pi < 2 * Real.pi) ∧
    (∀ i, i < num_vars →
      ((radar_theta num_vars)[i]?).map (fun c : ℚ => (c : ℝ) * Real.pi)
        = some (2 * Real.pi * i / num_vars)) := by
  have hn0 : (0 : ℚ) < num_vars := by exact_mod_cast h1
  refine ⟨fun _ => rfl, ?_, ?_, ?_, ?_, ?_⟩
  · rw [radar_theta_eq_map]; simp
  · rcases num_vars with _ | m
    · omega
    · rw [radar_theta_eq_map, List.range_succ_eq_map]
      simp
  · rw [radar_theta_eq_map, List.map_map, List.pairwise_map]
    refine (List.pairwise_lt_range num_vars).imp ?_
    intro a b hab
    have hab' : (a : ℚ) < b := by exact_mod_cast hab
    have hq : (2 * (a : ℚ) / num_vars) < 2 * (b : ℚ) / num_vars := by gcongr
    exact mul_lt_mul_of_pos_right (by exact_mod_cast hq) Real.pi_pos
  · intro c hc
    rw [radar_theta_eq_map] at hc
    obtain ⟨i, hi, rfl⟩ := List.mem_map.mp hc
    have hi' : i < num_vars := List.mem_range.mp hi
    constructor
    · have hq : (0 : ℚ) ≤ 2 * i / num_vars := by positivity
      exact mul_nonneg (by exact_mod_cast hq) Real.pi_pos.le
    · have hin : (i : ℚ) < num_vars := by exact_mod_cast hi'
      have hq : (2 * (i : ℚ) / num_vars) < 2 := by
        rw [div_lt_iff₀ hn0]; linarith
      exact mul_lt_mul_of_pos_right (by exact_mod_cast hq) Real.pi_pos
  · intro i hi
    rw [radar_theta_eq_map]
    simp only [List.getElem?_map, List.getElem?_range, hi, if_pos, Option.map_some']
    congr 1
    push_cast
    ring

/-- Witness for C1 at `num_vars = 3`. -/
theorem radar_theta_spec_witness :
    1 ≤ 3 ∧
    ((∀ frame, radar_factory 3 frame = radar_theta 3) ∧
     (radar_theta 3).length = 3 ∧
     (radar_theta 3).head? = some 0 ∧
     ((radar_theta 3).map fun c : ℚ => (c : ℝ) * Real.pi).Pairwise (· < ·) ∧
     (∀ c ∈ radar_theta 3,
       0 ≤ (c : ℝ) * Real.pi ∧ (c : ℝ) * Real.pi < 2 * Real.pi) ∧
     (∀ i : ℕ, i < 3 →
       ((radar_theta 3)[i]?).map (fun c : ℚ => (c : ℝ) * Real.pi)
         = some (2 * Real.pi * i / ((3 : ℕ) : ℝ)))) :=
  ⟨by norm_num, radar_theta_spec 3 (by norm_num)⟩

/-- C2, counterexample: a line whose first and last data points differ (the
x-coordinates agree while the y-coordinates differ) is left entirely
unchanged by `_close_line`, so its first and last points still differ after
the closing operation. -/
theorem close_line_points_differ_cex :
    ((List.head? ([0, 0] : List ℚ), List.head? ([1, 2] : List ℚ)) ≠
      (List.getLast? ([0, 0] : List ℚ), List.getLast? ([1, 2] : List ℚ))) ∧
    close_line [0, 0] [1, 2] = ([0, 0], [1, 2]) ∧
    (((close_line [0, 0] [1, 2]).1.head?, (close_line [0, 0] [1, 2]).2.head?) ≠
      ((close_line [0, 0] [1, 2]).1.getLast?, (close_line [0, 0] [1, 2]).2.getLast?)) := by
  refine ⟨by decide, ?_, by decide⟩
  decide

/-- C2, amended: for every plotted line whose first and last x-coordinates
differ, `_close_line` appends the first point to the end, yielding a
sequence whose first and last points are identical and whose interior
points are unchanged. -/
theorem close_line_closes (x y : List ℚ) (x0 xn y0 : ℚ)
    (hx : x.head? = some x0) (hl : x.getLast? = some xn) (hy : y.head? = some y0)
    (hne : x0 ≠ xn) :
    close_line x y = (x ++ [x0], y ++ [y0]) ∧
    (x ++ [x0]).head? = some x0 ∧ (x ++ [x0]).getLast? = some x0 ∧
    (y ++ [y0]).head? = some y0 ∧ (y ++ [y0]).getLast? = some y0 ∧
    (x ++ [x0]).take x.length = x ∧ (y ++ [y0]).take y.length = y := by
  obtain ⟨x', rfl⟩ : ∃ x', x = x0 :: x' := by
    cases x with
    | nil => simp at hx
    | cons a t =>
      have ha : a = x0 := by simpa using hx
      exact ⟨t, by rw [ha]⟩
  obtain ⟨y', rfl⟩ : ∃ y', y = y0 :: y' := by
    cases y with
    | nil => simp at hy
    | cons a t =>
      have ha : a = y0 := by simpa using hy
      exact ⟨t, by rw [ha]⟩
  refine ⟨?_, by simp, List.getLast?_concat _, by simp, List.getLast?_concat _,
    List.take_left _ _, List.take_left _ _⟩
  simp [close_line, hl, hne]

/-- Witness for `close_line_closes` at `x = [0, 1]`, `y = [5, 6]`. -/
theorem close_line_closes_witness :
    (List.head? ([0, 1] : List ℚ) = some 0) ∧
    (List.getLast? ([0, 1] : List ℚ) = some 1) ∧
    (List.head? ([5, 6] : List ℚ) = some 5) ∧
    ((0 : ℚ) ≠ 1) ∧
    (close_line [0, 1] [5, 6] = ([0, 1] ++ [0], [5, 6] ++ [5]) ∧
     (([0, 1] : List ℚ) ++ [0]).head? = some 0 ∧
     (([0, 1] : List ℚ) ++ [0]).getLast? = some 0 ∧
     (([5, 6] : List ℚ) ++ [5]).head? = some 5 ∧
     (([5, 6] : List ℚ) ++ [5]).getLast? = some 5 ∧
     (([0, 1] : List ℚ) ++ [0]).take ([0, 1] : List ℚ).length = [0, 1] ∧
     (([5, 6] : List ℚ) ++ [5]).take ([5, 6] : List ℚ).length = [5, 6]) :=
  ⟨by decide, by decide, by decide, by decide,
   close_line_closes [0, 1] [5, 6] 0 1 5 (by decide) (by decide) (by decide) (by decide)⟩

/-- C9: `_close_line` decides whether to close by comparing only the first
and last x-coordinates; whenever those agree the data is left entirely
unchanged, whatever the y-values are. -/
theorem close_line_x_equal_unchanged (x y : List ℚ)
    (h : x.head? = x.getLast?) :
    close_line x y = (x, y) := by
  unfold close_line
  split
  · next x0 xn y0 hx hl hy =>
      rw [hx, hl] at h
      have hx0 : x0 = xn := Option.some.inj h
      simp [hx0]
  · rfl

/-- Witness for `close_line_x_equal_unchanged`: equal first and last
x-coordinates, differing first and last y-values — data unchanged. -/
theorem close_line_x_equal_unchanged_witness :
    (List.head? ([0, 0] : List ℚ) = List.getLast? ([0, 0] : List ℚ)) ∧
    ((1 : ℚ) ≠ 2) ∧
    close_line [0, 0] [1, 2] = ([0, 0], [1, 2]) :=
  ⟨by decide, by decide, close_line_x_equal_unchanged [0, 0] [1, 2] (by decide)⟩

/-- C10: `RadarAxes.plot` returns `None` while the parent-class `plot`
returns the created lines; the override closes each created line on the
axes but never returns the line list to the caller. -/
theorem radar_plot_returns_none (lines : List Line) :
    (RadarAxes.plot lines).1 = none ∧
    (Axes.plot lines).1 = some lines ∧
    (RadarAxes.plot lines).2 = (Axes.plot lines).2.map Line.close :=
  ⟨rfl, rfl, rfl⟩

/-- C3, counterexample: with the unrecognized frame selector `triangle`,
`radar_factory` does not fail — it returns the same angle list as for a
valid selector — while the invalid-value error only arises later, when the
frame patch is generated. -/
theorem radar_factory_invalid_frame_cex :
    radar_factory 9 ("triangle") = radar_factory 9 ("polygon") ∧
    radar_factory 9 ("triangle") = radar_theta 9 ∧
    RadarAxes.gen_axes_patch ("triangle") 9 =
      .error ("Unknown value for \x27frame\x27: triangle") := by
  refine ⟨rfl, rfl, ?_⟩
  rfl

/-- C3, amended: `radar_factory` itself returns successfully for every
frame selector; for a selector other than `circle` and `polygon`, the
invalid-value error naming the offending value is raised only later, when
the axes frame patch is generated. -/
theorem invalid_frame_error_deferred (num_vars : ℕ) (frame : String)
    (hc : frame ≠ "circle") (hp : frame ≠ "polygon") :
    radar_factory num_vars frame = radar_theta num_vars ∧
    RadarAxes.gen_axes_patch frame num_vars =
      .error ("Unknown value for \x27frame\x27: " ++ frame) := by
  refine ⟨rfl, ?_⟩
  simp [RadarAxes.gen_axes_patch, hc, hp]

/-- Witness for `invalid_frame_error_deferred` at frame `triangle`. -/
theorem invalid_frame_error_deferred_witness :
    (("triangle" : String) ≠ "circle") ∧
    (("triangle" : String) ≠ "polygon") ∧
    (radar_factory 9 ("triangle") = radar_theta 9 ∧
     RadarAxes.gen_axes_patch ("triangle") 9 =
       .error ("Unknown value for \x27frame\x27: " ++ "triangle")) :=
  ⟨by decide, by decide,
   invalid_frame_error_deferred 9 ("triangle") (by decide) (by decide)⟩

/-- C4: the generated frame patch is a circle centered at `(0.5, 0.5)` of
radius `0.5` when the frame is `circle`, and a regular `num_vars`-gon
centered at `(0.5, 0.5)` with circumradius `0.5` when the frame is
`polygon` — in particular a regular 9-gon for `num_vars = 9`. -/
theorem gen_axes_patch_spec (num_vars : ℕ) :
    RadarAxes.gen_axes_patch ("circle") num_vars =
      .ok (.circle (0.5, 0.5) 0.5) ∧
    RadarAxes.gen_axes_patch ("polygon") num_vars =
      .ok (.regularPolygon (0.5, 0.5) num_vars 0.5 ("k")) ∧
    RadarAxes.gen_axes_patch ("polygon") 9 =
      .ok (.regularPolygon (0.5, 0.5) 9 0.5 ("k")) :=
  ⟨rfl, rfl, rfl⟩

/-- C5, counterexample: the list returned by `example_data` is mutated
after construction — the main block removes its first element with
`data.pop(0)`, leaving a 4-element list instead of the constructed
5-element one. -/
theorem example_data_pop_mutates_cex :
    main_data ≠ example_data ∧
    main_data.length = 4 ∧ example_data.length = 5 :=
  ⟨fun h => absurd (congrArg List.length h) (by decide), rfl, rfl⟩

/-- C5, amended: the only mutation of the constructed data table is the
`pop(0)` in the main block, which removes exactly the label row (the
9-string header) and hands it back; the four map entries are left exactly
as constructed. -/
theorem pop_only_removes_label_row :
    main_spoke_labels = example_data.head? ∧
    main_data = example_data.drop 1 ∧
    main_spoke_labels.map DataEntry.isLabels9 = some true ∧
    main_data.length = 4 := by
  refine ⟨rfl, ?_, rfl, rfl⟩
  rw [List.drop_one]
  rfl

/-- C6: `set_varlabels` pairs one label with each of the `num_vars` angular
positions in the computed order (the first projections of the assignment
are exactly the angles in degrees, the second projections exactly the
labels), and errors whenever the label count differs from `num_vars`. -/
theorem set_varlabels_spec (num_vars : ℕ) (labels : List String) :
    (labels.length = num_vars →
      RadarAxes.set_varlabels num_vars labels =
        .ok ((np_degrees (radar_theta num_vars)).zip labels) ∧
      ((np_degrees (radar_theta num_vars)).zip labels).length = num_vars ∧
      ((np_degrees (radar_theta num_vars)).zip labels).map Prod.fst =
        np_degrees (radar_theta num_vars) ∧
      ((np_degrees (radar_theta num_vars)).zip labels).map Prod.snd = labels) ∧
    (labels.length ≠ num_vars →
      RadarAxes.set_varlabels num_vars labels =
        .error ("The number of labels must match the number of tick locations")) := by
  have hlen : (np_degrees (radar_theta num_vars)).length = num_vars :=
    np_degrees_radar_theta_length num_vars
  constructor
  · intro h
    refine ⟨?_, ?_, ?_, ?_⟩
    · unfold RadarAxes.set_varlabels set_thetagrids
      rw [if_pos (by rw [hlen, h])]
    · rw [List.length_zip, hlen, h, Nat.min_self]
    · exact List.map_fst_zip _ _ (by rw [hlen, h])
    · exact List.map_snd_zip _ _ (by rw [hlen, h])
  · intro h
    unfold RadarAxes.set_varlabels set_thetagrids
    rw [if_neg (by rw [hlen]; exact h)]

/-- Witness for `set_varlabels_spec` with matching and mismatching label
counts at `num_vars = 2`. -/
theorem set_varlabels_spec_witness :
    (["a", "b"].length = 2) ∧
    (RadarAxes.set_varlabels 2 ["a", "b"] =
      .ok ((np_degrees (radar_theta 2)).zip ["a", "b"])) ∧
    (["a"].length ≠ 2) ∧
    (RadarAxes.set_varlabels 2 ["a"] =
      .error ("The number of labels must match the number of tick locations")) :=
  ⟨rfl, ((set_varlabels_spec 2 ["a", "b"]).1 rfl).1, by decide,
   (set_varlabels_spec 2 ["a"]).2 (by decide)⟩

/-- C7: for every path whose interpolation step count exceeds 1 (a
gridline path), the radar transform first interpolates the path over
`num_vars` segments and only then applies the coordinate transform to the
resulting vertices, keeping the codes of the interpolated path. -/
theorem transform_path_interpolates_first
    (interp : MPath → ℕ → MPath) (tr : List (ℚ × ℚ) → List (ℚ × ℚ))
    (num_vars : ℕ) (path : MPath) (h : 1 < path.interpolation_steps) :
    RadarTransform.transform_path_non_affine interp tr num_vars path =
      ⟨tr (interp path num_vars).vertices, (interp path num_vars).codes, 1⟩ := by
  unfold RadarTransform.transform_path_non_affine
  simp [h]

/-- Witness for `transform_path_interpolates_first` on a concrete gridline
path with step count 8, a doubling interpolator, and a coordinate-swapping
transform. -/
theorem transform_path_interpolates_first_witness :
    (1 < (MPath.mk [(1, 2)] none 8).interpolation_steps) ∧
    RadarTransform.transform_path_non_affine
        (fun p _ => MPath.mk (p.vertices ++ p.vertices) p.codes p.interpolation_steps)
        (fun v => v.map fun q => (q.2, q.1)) 5 (MPath.mk [(1, 2)] none 8) =
      MPath.mk
        ((fun v : List (ℚ × ℚ) => v.map fun q => (q.2, q.1))
          ((fun p : MPath => fun _ : ℕ =>
            MPath.mk (p.vertices ++ p.vertices) p.codes p.interpolation_steps)
            (MPath.mk [(1, 2)] none 8) 5).vertices)
        ((fun p : MPath => fun _ : ℕ =>
          MPath.mk (p.vertices ++ p.vertices) p.codes p.interpolation_steps)
          (MPath.mk [(1, 2)] none 8) 5).codes
        1 :=
  ⟨by decide,
   transform_path_interpolates_first
     (fun p _ => MPath.mk (p.vertices ++ p.vertices) p.codes p.interpolation_steps)
     (fun v => v.map fun q => (q.2, q.1)) 5 (MPath.mk [(1, 2)] none 8) (by decide)⟩

/-- C8: the literal data table has 5 entries — a header of exactly 9
category label strings followed by exactly 4 map entries, each holding
exactly 5 player rows of exactly 9 values, every value lying in the closed
interval [0, 1]. -/
theorem example_data_shape :
    example_data.length = 5 ∧
    example_data.head?.map DataEntry.isLabels9 = some true ∧
    example_data.tail.length = 4 ∧
    example_data.tail.all DataEntry.isMapEntryOK = true := by
  refine ⟨rfl, rfl, rfl, ?_⟩
  norm_num [example_data, DataEntry.isMapEntryOK]
